import Mathlib

/-!
Verification of the tf2autobot fragment: the inventory-diff helper
(`src/lib/extend/offer/getDiff.ts`), the multi-source ban-check aggregator
(class `Bans` in the same bundle), and the prices.tf websocket manager
(`src/lib/pricer/pricestf/prices-tf-socket-manager.ts`).

JavaScript objects used as string-keyed dictionaries are embedded as
insertion-ordered association lists `List (String × α)`; promise outcomes are
embedded explicitly (`Settled`), distinguishing resolution, rejection, and a
promise that never settles; network responses are inputs to the embedded
functions, one parameter per request the code can make.
-/

/-- JS object property read `obj[k]`: the value at key `k`, or `undefined`
(`none`). Key comparison is exact string equality. -/
def jsLookup {α : Type} : List (String × α) → String → Option α
  | [], _ => none
  | p :: rest, k => if p.1 = k then some p.2 else jsLookup rest k

/-- JS object property write `obj[k] = v`: overwrite in place when the key
exists, append in insertion order otherwise. -/
def jsSet {α : Type} : List (String × α) → String → α → List (String × α)
  | [], k, v => [(k, v)]
  | p :: rest, k, v => if p.1 = k then (k, v) :: rest else p :: jsSet rest k v

theorem jsLookup_jsSet_self {α : Type} (l : List (String × α)) (k : String) (v : α) :
    jsLookup (jsSet l k v) k = some v := by
  induction l with
  | nil => simp [jsSet, jsLookup]
  | cons p rest ih =>
    by_cases h : p.1 = k
    · simp [jsSet, h, jsLookup]
    · simp [jsSet, h, jsLookup, ih]

theorem jsLookup_jsSet_other {α : Type} (l : List (String × α)) (k k' : String) (v : α)
    (hne : k' ≠ k) : jsLookup (jsSet l k v) k' = jsLookup l k' := by
  induction l with
  | nil => simp [jsSet, jsLookup, Ne.symm hne]
  | cons p rest ih =>
    by_cases h : p.1 = k
    · subst h
      simp [jsSet, jsLookup, Ne.symm hne]
    · simp [jsSet, h, jsLookup, ih]

/-! ## Inventory diff helper (getDiff.ts, exported function)

The source reads `dict = offer.data('dict')`; `undefined` means the offer
carries no side-data annotation. Otherwise two `for..in` passes build the
diff object: first `diff[sku] = (diff[sku] || 0) - dict.our[sku]`, then
`diff[sku] = (diff[sku] || 0) + dict.their[sku]`. -/

/-- The `dict` side-data annotation of a trade offer: one quantity map per
side. -/
structure DictData where
  our : List (String × Int)
  their : List (String × Int)

/-- One `for..in` accumulation pass of getDiff: for each entry of `side`,
`diff[sku] = op (diff[sku] || 0) side[sku]` (`op` is subtraction for the
`our` pass and addition for the `their` pass). -/
def diffPass (op : Int → Int → Int) (init : List (String × Int)) (side : List (String × Int)) :
    List (String × Int) :=
  side.foldl (fun diff p => jsSet diff p.1 (op ((jsLookup diff p.1).getD 0) p.2)) init

/-- `getDiff` from `src/lib/extend/offer/getDiff.ts`: `null` when the offer
has no `dict` annotation; otherwise the subtract-ours pass followed by the
add-theirs pass, starting from the empty object. -/
def getDiff (dict : Option DictData) : Option (List (String × Int)) :=
  match dict with
  | none => none
  | some d => some (diffPass (fun a b => a + b) (diffPass (fun a b => a - b) [] d.our) d.their)

theorem jsLookup_diffPass (op : Int → Int → Int) (side : List (String × Int)) :
    ∀ (init : List (String × Int)), (side.map Prod.fst).Nodup → ∀ k : String,
      jsLookup (diffPass op init side) k =
        if k ∈ side.map Prod.fst then
          some (op ((jsLookup init k).getD 0) ((jsLookup side k).getD 0))
        else jsLookup init k := by
  induction side with
  | nil => intro init _ k; simp [diffPass, jsLookup]
  | cons p rest ih =>
    intro init hnd k
    have hnd' : (rest.map Prod.fst).Nodup := by
      simpa using hnd.of_cons
    have hnotmem : p.1 ∉ rest.map Prod.fst := by
      simp only [List.map_cons, List.nodup_cons] at hnd
      exact hnd.1
    have hfold : diffPass op init (p :: rest) =
        diffPass op (jsSet init p.1 (op ((jsLookup init p.1).getD 0) p.2)) rest := by
      simp [diffPass]
    rw [hfold, ih _ hnd' k]
    by_cases hk : k = p.1
    · subst hk
      rw [if_neg hnotmem, jsLookup_jsSet_self, if_pos (by simp)]
      simp [jsLookup]
    · rw [jsLookup_jsSet_other init p.1 k _ hk]
      have h2 : jsLookup (p :: rest) k = jsLookup rest k := by
        simp [jsLookup, Ne.symm hk]
      by_cases hm : k ∈ rest.map Prod.fst
      · rw [if_pos hm, if_pos (by simp [hm]), h2]
      · rw [if_neg hm, if_neg (by simp [hm, hk])]

theorem jsLookup_eq_none {α : Type} (l : List (String × α)) (k : String)
    (h : k ∉ l.map Prod.fst) : jsLookup l k = none := by
  induction l with
  | nil => rfl
  | cons p rest ih =>
    simp only [List.map_cons, List.mem_cons, not_or] at h
    simp [jsLookup, Ne.symm h.1, ih h.2]

/-- Claim C8: getDiff returns null when the offer carries no dict side-data
annotation; the diff of two empty side dictionaries is the empty mapping; and
for every key present in either side dictionary (side dictionaries have
JS-object-unique keys), diff[k] = their[k] - our[k], a missing quantity
counting as 0. -/
theorem c8_getDiff_spec (d : DictData) (k : String)
    (hour : (d.our.map Prod.fst).Nodup) (htheir : (d.their.map Prod.fst).Nodup)
    (hmem : k ∈ d.our.map Prod.fst ∨ k ∈ d.their.map Prod.fst) :
    getDiff none = none ∧
    getDiff (some ⟨[], []⟩) = some [] ∧
    ∃ diff, getDiff (some d) = some diff ∧
      jsLookup diff k = some (((jsLookup d.their k).getD 0) - ((jsLookup d.our k).getD 0)) := by
  refine ⟨rfl, rfl, _, rfl, ?_⟩
  rw [jsLookup_diffPass (fun a b => a + b) d.their _ htheir k,
    jsLookup_diffPass (fun a b => a - b) d.our _ hour k]
  by_cases ho : k ∈ d.our.map Prod.fst
  · by_cases ht : k ∈ d.their.map Prod.fst
    · simp only [if_pos ho, if_pos ht, jsLookup, Option.getD_some, Option.getD_none]
      congr 1
      omega
    · rw [if_neg ht, if_pos ho, jsLookup_eq_none d.their k ht]
      simp [jsLookup]
  · have ht : k ∈ d.their.map Prod.fst := hmem.resolve_left ho
    rw [if_pos ht, if_neg ho, jsLookup_eq_none d.our k ho]
    simp [jsLookup]

/-- Witness for C8 at a concrete offer: ours has a:2, b:1; theirs has a:5,
c:3; the diff at key a is 5 - 2 = 3. -/
theorem c8_getDiff_spec_witness :
    (([("a", (2 : Int)), ("b", 1)].map Prod.fst).Nodup) ∧
    (([("a", (5 : Int)), ("c", 3)].map Prod.fst).Nodup) ∧
    ("a" ∈ [("a", (2 : Int)), ("b", 1)].map Prod.fst ∨
      "a" ∈ [("a", (5 : Int)), ("c", 3)].map Prod.fst) ∧
    (getDiff none = none ∧
      getDiff (some ⟨[], []⟩) = some [] ∧
      ∃ diff, getDiff (some ⟨[("a", 2), ("b", 1)], [("a", 5), ("c", 3)]⟩) = some diff ∧
        jsLookup diff "a" =
          some (((jsLookup [("a", (5 : Int)), ("c", 3)] "a").getD 0) -
            ((jsLookup [("a", (2 : Int)), ("b", 1)] "a").getD 0))) :=
  ⟨by decide, by decide, by decide,
    c8_getDiff_spec ⟨[("a", 2), ("b", 1)], [("a", 5), ("c", 3)]⟩ "a"
      (by decide) (by decide) (by decide)⟩

/-! ## Ban-check aggregator (class Bans in the bans module)

Each per-site check performs HTTP requests whose parsed responses are inputs
here, one `FetchOutcome` per request the code can issue. Each check model
returns the behaviour of the promise the caller holds together with the
writes it performs to the cached instance flags. -/

/-- Per-site check outcome `{ isBanned, content? }`. -/
structure SiteResult where
  isBanned : Bool
  content : Option String
deriving DecidableEq, Repr

/-- Outcome of one HTTP request: the parsed response body on fulfilment, or a
rejection; `abortErr` is a rejection satisfying the abort test
(`err instanceof AbortSignal`) of the untrusted-list retry condition,
`otherErr` any other rejection. -/
inductive FetchOutcome (α : Type) where
  | success (data : α)
  | abortErr
  | otherErr
deriving DecidableEq, Repr

/-- True when the request did not fulfil. -/
def FetchOutcome.isFailure {α : Type} : FetchOutcome α → Bool
  | .success _ => false
  | _ => true

/-- Behaviour of a JS promise: settle fulfilled, settle rejected, or never
settle at all. -/
inductive Settled (α : Type) where
  | resolved (a : α)
  | rejectedErr
  | hang
deriving DecidableEq, Repr

/-- One record of the parsed untrusted.min.json list. -/
structure UntrustedEntry where
  reason : String
  source : String
deriving DecidableEq, Repr

/-- Parsed untrusted.min.json body: steamid → entry. -/
structure UntrustedJson where
  steamids : List (String × UntrustedEntry)
deriving DecidableEq, Repr

/-- The then-handler of isListedUntrusted: an absent key resolves clean; a
listing resolves banned with the reason/source string and writes `true` to
the cached community flag. Returns (resolved value, cache write). -/
def untrustedThen (steamID : String) (j : UntrustedJson) : Option SiteResult × Option Bool :=
  match jsLookup j.steamids steamID with
  | none => (some ⟨false, none⟩, none)
  | some e =>
    (some ⟨true, some ("Reason: " ++ e.reason ++ " - Source: " ++ e.source)⟩, some true)

/-- One run of the untrusted-list check: behaviour of the promise handed to
the caller, number of HTTP attempts performed (own and nested), and the
write (if any) to the cached community flag. -/
structure UntrustedRun where
  res : Settled (Option SiteResult)
  attempts : Nat
  communityWrite : Option Bool
deriving DecidableEq, Repr

/-- isListedUntrusted invoked with attempt = 'retry': the retry condition
`err instanceof AbortSignal && attempt !== 'retry'` is then false, so every
rejection reaches `resolve(undefined)`. -/
def isListedUntrustedRetry (steamID : String) (outcome : FetchOutcome UntrustedJson) :
    UntrustedRun :=
  match outcome with
  | .success j =>
    let rw := untrustedThen steamID j
    ⟨.resolved rw.1, 1, rw.2⟩
  | _ => ⟨.resolved none, 1, none⟩

/-- isListedUntrusted invoked with attempt = 'first' (the default). On an
abort-type rejection the catch handler returns
`this.isListedUntrusted('retry')`: the retry request runs (and may write the
cache), but that return value is discarded by the promise machinery -
`resolve` of the promise the caller holds is never invoked on this path, so
that promise never settles. -/
def isListedUntrusted (steamID : String) (first retry : FetchOutcome UntrustedJson) :
    UntrustedRun :=
  match first with
  | .success j =>
    let rw := untrustedThen steamID j
    ⟨.resolved rw.1, 1, rw.2⟩
  | .abortErr =>
    let sub := isListedUntrustedRetry steamID retry
    ⟨.hang, 1 + sub.attempts, sub.communityWrite⟩
  | .otherErr => ⟨.resolved none, 1, none⟩

/-- JS `toLowerCase` over the characters of a string. -/
def jsToLower (l : List Char) : List Char := l.map Char.toLower

/-- Bool-valued prefix test on character lists. -/
def isPre : List Char → List Char → Bool
  | [], _ => true
  | _ :: _, [] => false
  | a :: as, b :: bs => a == b && isPre as bs

/-- Bool-valued substring test: `hasSubstr pat l` is JS
`l.indexOf(pat) !== -1`. -/
def hasSubstr (pat : List Char) : List Char → Bool
  | [] => isPre pat []
  | c :: rest => isPre pat (c :: rest) || hasSubstr pat rest

/-- A steamrep reputation object; both fields are optional in the response. -/
structure Reputation where
  full : Option String
  summary : Option (List Char)
deriving DecidableEq, Repr

/-- Parsed steamrep.com response body (the `steamrep` object). -/
structure SteamRepData where
  reputation : Option Reputation
deriving DecidableEq, Repr

/-- The then-handler expression of isSteamRepMarked,
`reputation?.summary.toLowerCase().indexOf('scammer') !== -1`: when
`reputation` is nullish the optional chain short-circuits to `undefined`,
and `undefined !== -1` is true, so the handler resolves banned; when
`reputation` is present but `summary` is undefined, `.toLowerCase()` throws
a TypeError, which the promise chain routes to the catch handler. The
content is `reputation?.full ?? ''`. -/
def steamRepThen (d : SteamRepData) : Except Unit (Bool × String) :=
  match d.reputation with
  | none => .ok (true, "")
  | some rep =>
    match rep.summary with
    | none => .error ()
    | some s => .ok (hasSubstr "scammer".toList (jsToLower s), rep.full.getD "")

/-- One run of the steamrep check: promise behaviour and the write (if any)
to the cached steamrep flag. -/
structure SteamRepRun where
  res : Settled (Option SiteResult)
  steamRepWrite : Option Bool
deriving DecidableEq, Repr

/-- The catch handler of isSteamRepMarked: fall back to the cached
bptf-derived steamrep flag when it is not null (with no content), else
resolve undefined. -/
def steamRepCatch (cachedBptfSteamRep : Option Bool) : SteamRepRun :=
  match cachedBptfSteamRep with
  | some b => ⟨.resolved (some ⟨b, none⟩), none⟩
  | none => ⟨.resolved none, none⟩

/-- isSteamRepMarked of class Bans. -/
def isSteamRepMarked (outcome : FetchOutcome SteamRepData) (cachedBptfSteamRep : Option Bool) :
    SteamRepRun :=
  match outcome with
  | .success d =>
    match steamRepThen d with
    | .ok bf => ⟨.resolved (some ⟨bf.1, some bf.2⟩), some bf.1⟩
    | .error _ => steamRepCatch cachedBptfSteamRep
  | _ => steamRepCatch cachedBptfSteamRep

/-- Marketplace.tf ban detail (the TS field named `type` is `banType`
here). -/
structure MptfBan where
  time : Int
  banType : String
deriving DecidableEq, Repr

/-- One entry of the marketplace results array; `banned` and `ban` are read
through `?? false` and `?.` guards, hence optional here. -/
structure MptfResult where
  steamid : String
  banned : Option Bool
  ban : Option MptfBan
deriving DecidableEq, Repr

/-- Marketplace.tf response body; `results = none` embeds a body whose
`results` field is not an array. -/
structure MptfGetUserBan where
  results : Option (List MptfResult)
deriving DecidableEq, Repr

/-- One run of the marketplace check: promise behaviour and the write (if
any) to the cached marketplace flag. -/
structure MptfRun where
  res : Settled (Option SiteResult)
  mptfWrite : Option Bool
deriving DecidableEq, Repr

/-- The scan loop of isMptfBanned's then-handler: the first entry whose
steamid matches resolves with its banned flag (defaulting false, also
written to the cache) and its ban type (defaulting to the empty string); no
match falls through to `resolve({ isBanned: false })` with no content and no
cache write. -/
def mptfScan (steamID : String) : List MptfResult → Option SiteResult × Option Bool
  | [] => (some ⟨false, none⟩, none)
  | r :: rest =>
    if steamID = r.steamid then
      (some ⟨r.banned.getD false, some ((r.ban.map MptfBan.banType).getD "")⟩,
        some (r.banned.getD false))
    else mptfScan steamID rest

/-- isMptfBanned of class Bans: resolves undefined immediately when the
marketplace check is disabled; rejects with a configuration error when it is
enabled but the API key is the empty string; otherwise scans the response
(resolving undefined on a malformed body or a failed request). -/
def isMptfBanned (checkMptfBanned : Bool) (mptfApiKey : String) (steamID : String)
    (outcome : FetchOutcome MptfGetUserBan) : MptfRun :=
  if !checkMptfBanned then ⟨.resolved none, none⟩
  else if mptfApiKey = "" then ⟨.rejectedErr, none⟩
  else
    match outcome with
    | .success d =>
      match d.results with
      | none => ⟨.resolved none, none⟩
      | some rs =>
        let rw := mptfScan steamID rs
        ⟨.resolved rw.1, rw.2⟩
    | _ => ⟨.resolved none, none⟩

/-- A ban block under `all` or `"all features"` of a backpack.tf user. -/
structure BptfBanDetail where
  reason : Option String
deriving DecidableEq, Repr

/-- The `bans` sub-object of a backpack.tf user. -/
structure BptfBans where
  all : Option BptfBanDetail
  allFeatures : Option BptfBanDetail
  steamrepScammer : Option Int
deriving DecidableEq, Repr

/-- The user record of the backpack.tf users/info response. -/
structure BptfUser where
  bans : Option BptfBans
deriving DecidableEq, Repr

/-- One run of the backpack.tf check: promise behaviour and the writes (if
any) to the cached bptf flag and the bptf-derived steamrep flag. -/
structure BptfRun where
  res : Settled (Option SiteResult)
  bptfWrite : Option Bool
  bptfSteamRepWrite : Option Bool
deriving DecidableEq, Repr

/-- isBptfBanned of class Bans (the private method). With no API key
configured it returns undefined without issuing a request (an
already-settled undefined for the Promise.all join). On success,
`isBanned = user.bans && (bans.all !== undefined || bans['all features'] !== undefined)`
(the JS value `undefined` when `bans` is absent, falsy either way, written
to the cache as such), the reason chains `all?.reason ?? allFeatures?.reason ?? ''`,
and the bptf-derived steamrep flag caches `steamrep_scammer === 1`. Failures
resolve undefined. -/
def isBptfBanned (bptfApiKey : String) (outcome : FetchOutcome BptfUser) : BptfRun :=
  if bptfApiKey = "" then ⟨.resolved none, none, none⟩
  else
    match outcome with
    | .success user =>
      match user.bans with
      | none => ⟨.resolved (some ⟨false, some ""⟩), some false, some false⟩
      | some bans =>
        let isB := bans.all.isSome || bans.allFeatures.isSome
        let reason :=
          ((bans.all.bind BptfBanDetail.reason).orElse
            (fun _ => bans.allFeatures.bind BptfBanDetail.reason)).getD ""
        ⟨.resolved (some ⟨isB, some reason⟩), some isB,
          some (decide (bans.steamrepScammer = some 1))⟩
    | _ => ⟨.resolved none, none, none⟩

/-- The four sites of the consolidated rep.autobot.tf response. -/
inductive SiteName where
  | tf2autobot
  | mptf
  | bptf
  | steamrep
deriving DecidableEq, Repr

/-- The JSON key of each site in the consolidated response. -/
def siteKeyName : SiteName → String
  | .tf2autobot => "TF2Autobot"
  | .mptf => "Marketplace.tf"
  | .bptf => "Backpack.tf"
  | .steamrep => "Steamrep.com"

/-- One field of the consolidated response's contents object: the literal
string "Error", null (the code notes an entry "can also be null"), or a
per-site result. -/
inductive RepEntry where
  | errorSentinel
  | nullEntry
  | ok (r : SiteResult)
deriving DecidableEq, Repr

/-- Parsed rep.autobot.tf response body. -/
structure RepAutobotTf where
  isBanned : Bool
  contents : SiteName → RepEntry
  isBannedExcludeMptf : Bool

/-- Aggregated result `{ isBanned, contents? }`; contents values are JS
strings that may be undefined. -/
structure IsBanned where
  isBanned : Bool
  contents : Option (List (String × Option String))
deriving DecidableEq, Repr

/-- Object.keys iteration order over the consolidated contents object, per
its interface declaration. -/
def siteOrder : List SiteName := [.tf2autobot, .mptf, .bptf, .steamrep]

/-- One step of the reduce over Object.keys on primary success: keep a site
whose entry is not "Error" and is a non-null result with isBanned truthy,
mapping the site key to that entry's content. -/
def successStep (contents : SiteName → RepEntry) (obj : List (String × Option String))
    (site : SiteName) : List (String × Option String) :=
  match contents site with
  | .ok r => if r.isBanned then jsSet obj (siteKeyName site) r.content else obj
  | _ => obj

/-- The whole reduce of isBanned's success branch, over the contents keys in
declaration order, starting from the empty object. -/
def successContents (contents : SiteName → RepEntry) : List (String × Option String) :=
  siteOrder.foldl (successStep contents) []

/-- JS template interpolation of a possibly-undefined string value. -/
def jsTemplate (c : Option String) : String :=
  match c with
  | some s => s
  | none => "undefined"

/-- One contents line built by finalize:
`` `banned${content !== '' ? ` - ${content}` : ''}` `` for a banned result
(note an undefined content passes the `!== ''` test and interpolates as the
text "undefined"), `'clean'` otherwise. -/
def banLabel (r : SiteResult) : String :=
  if r.isBanned then
    "banned" ++ (if r.content ≠ some "" then " - " ++ jsTemplate r.content else "")
  else "clean"

/-- The settled values of the four fallback checks as destructured by
finalize. -/
structure ResultSources where
  bptf : Option SiteResult
  mptf : Option SiteResult
  steamrep : Option SiteResult
  untrusted : Option SiteResult
deriving DecidableEq, Repr

/-- The deny-by-default result that finalize leaves in place when no
fallback produced a result. -/
def defaultDenyResult : IsBanned :=
  ⟨true,
    some [("default-rule", some "all offline and online ban checks failed. internet issues?")]⟩

/-- `finalize` from the catch branch of isBanned: with at least one
non-undefined result, isBanned is `validResults.some(r => r.isBanned)` and
the contents object gains one labelled line per resolved source (the
marketplace line only when the marketplace check is enabled; the steamrep
line under the literal key "Steamrep.com:"); with none, the prior
deny-by-default result is returned unchanged. -/
def finalize (checkMptfBanned : Bool) (rs : ResultSources) : IsBanned :=
  let validResults := [rs.bptf, rs.mptf, rs.steamrep, rs.untrusted].filterMap id
  if 0 < validResults.length then
    let c1 := match rs.bptf with
      | some b => jsSet [] "Backpack.tf" (some (banLabel b))
      | none => []
    let c2 := if checkMptfBanned then
        match rs.mptf with
        | some m => jsSet c1 "Marketplace.tf" (some (banLabel m))
        | none => c1
      else c1
    let c3 := match rs.untrusted with
      | some u => jsSet c2 "TF2Autobot" (some (banLabel u))
      | none => c2
    let c4 := match rs.steamrep with
      | some s => jsSet c3 "Steamrep.com:" (some (banLabel s))
      | none => c3
    ⟨validResults.any SiteResult.isBanned, some c4⟩
  else defaultDenyResult

/-- The five cached instance flags of a Bans instance (`null` initially). -/
structure BansState where
  isBptfBanned : Option Bool
  isBptfSteamRepBanned : Option Bool
  isSteamRepBanned : Option Bool
  isCommunityBanned : Option Bool
  isMptfBanned : Option Bool
deriving DecidableEq, Repr

/-- The reputation-check configuration consumed by isBanned. -/
structure BansOpts where
  checkMptfBanned : Bool
  mptfApiKey : String
  bptfApiKey : String
deriving DecidableEq, Repr

/-- All network responses one isBanned() invocation can consume. -/
structure AggEnv where
  primary : FetchOutcome RepAutobotTf
  untrustedFirst : FetchOutcome UntrustedJson
  untrustedRetry : FetchOutcome UntrustedJson
  mptf : FetchOutcome MptfGetUserBan
  steamrep : FetchOutcome SteamRepData
  bptf : FetchOutcome BptfUser

/-- Apply one optional cache write over the previous flag value. -/
def applyWrite (w : Option Bool) (old : Option Bool) : Option Bool :=
  match w with
  | some v => some v
  | none => old

/-- The cache state after the four fallback checks have run. -/
def aggPostState (opts : BansOpts) (steamID : String) (st : BansState) (env : AggEnv) :
    BansState :=
  let u := isListedUntrusted steamID env.untrustedFirst env.untrustedRetry
  let m := isMptfBanned opts.checkMptfBanned opts.mptfApiKey steamID env.mptf
  let s := isSteamRepMarked env.steamrep st.isBptfSteamRepBanned
  let b := isBptfBanned opts.bptfApiKey env.bptf
  ⟨applyWrite b.bptfWrite st.isBptfBanned,
    applyWrite b.bptfSteamRepWrite st.isBptfSteamRepBanned,
    applyWrite s.steamRepWrite st.isSteamRepBanned,
    applyWrite u.communityWrite st.isCommunityBanned,
    applyWrite m.mptfWrite st.isMptfBanned⟩

/-- `[..].some(b => b)` over the five cached flags in the catch of the
Promise.all, the marketplace flag contributing only when the marketplace
check is enabled (JS truthiness: null, undefined and false are all falsy). -/
def cachedSaysBanned (checkMptfBanned : Bool) (st : BansState) : Bool :=
  [decide (st.isBptfBanned = some true),
    decide (st.isBptfSteamRepBanned = some true),
    decide (st.isSteamRepBanned = some true),
    decide (st.isCommunityBanned = some true),
    checkMptfBanned && decide (st.isMptfBanned = some true)].any (fun b => b)

/-- The four private per-site check methods. -/
inductive CheckName where
  | untrustedCheck
  | mptfCheck
  | steamrepCheck
  | bptfCheck
deriving DecidableEq, Repr

/-- One run of isBanned(): promise behaviour, which fallback checks were
invoked, and the final cache state. -/
structure AggRun where
  res : Settled IsBanned
  fallbacksInvoked : List CheckName
  finalState : BansState

/-- `isBanned()` of class Bans. On primary success: select the configured
isBanned field, build the filtered contents, return without invoking any
fallback. On primary failure: invoke the four checks; if all four promises
resolve, merge with finalize; if any rejects, Promise.all rejects and the
catch consults the cached flags, resolving `{isBanned: false}` with no
contents when none is truthy and re-throwing otherwise; if none rejects but
one never settles, neither does the join. -/
def bansIsBanned (opts : BansOpts) (steamID : String) (st : BansState) (env : AggEnv) :
    AggRun :=
  match env.primary with
  | .success rep =>
    ⟨.resolved ⟨(if opts.checkMptfBanned then rep.isBanned else rep.isBannedExcludeMptf),
        some (successContents rep.contents)⟩,
      [], st⟩
  | _ =>
    let u := isListedUntrusted steamID env.untrustedFirst env.untrustedRetry
    let m := isMptfBanned opts.checkMptfBanned opts.mptfApiKey steamID env.mptf
    let s := isSteamRepMarked env.steamrep st.isBptfSteamRepBanned
    let b := isBptfBanned opts.bptfApiKey env.bptf
    let st' := aggPostState opts steamID st env
    let invoked := [CheckName.untrustedCheck, .mptfCheck, .steamrepCheck, .bptfCheck]
    match u.res, m.res, s.res, b.res with
    | .resolved uv, .resolved mv, .resolved sv, .resolved bv =>
      ⟨.resolved (finalize opts.checkMptfBanned ⟨bv, mv, sv, uv⟩), invoked, st'⟩
    | _, _, _, _ =>
      if u.res = .rejectedErr ∨ m.res = .rejectedErr ∨ s.res = .rejectedErr ∨
          b.res = .rejectedErr then
        if cachedSaysBanned opts.checkMptfBanned st' then ⟨.rejectedErr, invoked, st'⟩
        else ⟨.resolved ⟨false, none⟩, invoked, st'⟩
      else ⟨.hang, invoked, st'⟩

/-! ## prices.tf socket manager (prices-tf-socket-manager.ts)

The error-event handler registered by `init()` is embedded as the sequence
of observable actions it performs, as a function of the error message and of
whether the token refresh promise fulfils. -/

/-- Observable actions of the socket error handler. -/
inductive SocketAction where
  | closeWS
  | setupTokenCall
  | reconnectWS
  | logErrorCall
deriving DecidableEq, Repr

/-- The message of an unauthorized websocket response. -/
def msg401 : String := "Unexpected server response: 401"

/-- The error-event handler from `init()`: always `this.ws.close()` first;
on the 401 message, `setupToken()` then reconnect on refresh success, or
reconnect followed by `logger.error` on refresh failure (the
`socketUnauthorized()` call there only constructs a closure and performs no
action); on any other message, only `logger.error`. -/
def socketOnError (message : String) (refreshOk : Bool) : List SocketAction :=
  [SocketAction.closeWS] ++
    (if message = msg401 then
      [SocketAction.setupTokenCall] ++
        (if refreshOk then [SocketAction.reconnectWS]
         else [SocketAction.reconnectWS, SocketAction.logErrorCall])
    else [SocketAction.logErrorCall])

/-! ## Substring test characterisation (for the steamrep check) -/

theorem isPre_iff (p : List Char) : ∀ l : List Char, isPre p l = true ↔ p <+: l := by
  induction p with
  | nil => intro l; simp [isPre]
  | cons a as ih =>
    intro l
    cases l with
    | nil => simp [isPre]
    | cons b bs => simp [isPre, ih, List.cons_prefix_cons]

theorem hasSubstr_iff (p : List Char) : ∀ l : List Char, hasSubstr p l = true ↔ p <:+: l := by
  intro l
  induction l with
  | nil => simp [hasSubstr, isPre_iff, List.infix_nil, List.prefix_nil]
  | cons c rest ih => simp [hasSubstr, isPre_iff, ih, List.infix_cons_iff]

/-- Modelled from the spec's words for claim C4: the summary text contains
the substring "scammer" compared case-insensitively, i.e. some stretch of
the summary lowercases to "scammer". -/
def specContainsScammerCI (s : List Char) : Prop :=
  ∃ mid : List Char, mid <:+: s ∧ jsToLower mid = "scammer".toList

theorem hasSubstr_toLower_iff (s : List Char) :
    hasSubstr "scammer".toList (jsToLower s) = true ↔ specContainsScammerCI s := by
  rw [hasSubstr_iff]
  constructor
  · rintro ⟨pre, post, hps⟩
    rw [jsToLower] at hps
    have h1 : s.map Char.toLower = pre ++ ("scammer".toList ++ post) := by
      rw [← hps]; simp [List.append_assoc]
    rw [List.map_eq_append_iff] at h1
    obtain ⟨l₁, l₂, hs₁, _, h₂⟩ := h1
    rw [List.map_eq_append_iff] at h₂
    obtain ⟨m₁, m₂, hs₂, hm₁, _⟩ := h₂
    refine ⟨m₁, ⟨l₁, m₂, ?_⟩, hm₁⟩
    rw [hs₁, hs₂]
    simp [List.append_assoc]
  · rintro ⟨mid, ⟨pre, post, hps⟩, hlow⟩
    refine ⟨pre.map Char.toLower, post.map Char.toLower, ?_⟩
    rw [← hlow, jsToLower, jsToLower, ← hps]
    simp

/-! ## Claim C3 (untrusted-list retry) -/

/-- Claim C3, evaluated at the failing input: the first untrusted-list
attempt rejects with the abort error type and the retry also fails. Exactly
one retry is performed (two HTTP attempts in total, as the claim says) and
the promise indeed never rejects, but the promise returned to the caller
never settles at all - the catch handler returns the retry's promise instead
of resolving with it - where the claim says it resolves undefined. -/
theorem c3_abort_retry_eval :
    (isListedUntrusted "76561198117552565" .abortErr .abortErr).attempts = 2 ∧
    (isListedUntrusted "76561198117552565" .abortErr .abortErr).res = Settled.hang ∧
    (isListedUntrusted "76561198117552565" .abortErr .abortErr).res ≠ Settled.rejectedErr := by
  decide

/-! ## Claim C4 (steamrep scammer test) -/

/-- Counterexample to claim C4 as stated: a steamrep response whose
`reputation` object is absent contains no summary text at all (so no
"scammer" substring), yet the check resolves isBanned = true, because the
optional chain makes the banned test `undefined !== -1`, which is true. -/
theorem c4_counterexample :
    (isSteamRepMarked (.success ⟨none⟩) none).res =
      Settled.resolved (some ⟨true, some ""⟩) ∧
    (⟨none⟩ : SteamRepData).reputation = none := by
  decide

/-- Claim C4 (amended): for every steamrep response that carries a
reputation summary text, the check resolves with isBanned = true iff the
summary contains "scammer" case-insensitively; a response with no
reputation object at all instead resolves isBanned = true outright. -/
theorem c4_amended (full : Option String) (s : List Char) (cached : Option Bool) :
    (∃ r : SiteResult,
      (isSteamRepMarked (.success ⟨some ⟨full, some s⟩⟩) cached).res =
        Settled.resolved (some r) ∧
      (r.isBanned = true ↔ specContainsScammerCI s)) ∧
    (isSteamRepMarked (.success ⟨none⟩) cached).res =
      Settled.resolved (some ⟨true, some ""⟩) := by
  constructor
  · exact ⟨⟨hasSubstr "scammer".toList (jsToLower s), some (full.getD "")⟩, rfl,
      hasSubstr_toLower_iff s⟩
  · rfl

/-! ## Claim C9 (socket error handler) -/

/-- Claim C9: an error event with message "Unexpected server response: 401"
force-closes the connection and makes exactly one setupToken call, occurring
before any reconnect; the reconnect happens even when the refresh fails, and
the refresh failure is logged; any other message triggers no token
refresh. -/
theorem c9_socket_error_handler (message : String) (refreshOk : Bool) :
    (message = msg401 →
      (socketOnError message refreshOk).head? = some SocketAction.closeWS ∧
      (socketOnError message refreshOk).count SocketAction.setupTokenCall = 1 ∧
      SocketAction.setupTokenCall ∈
        (socketOnError message refreshOk).takeWhile
          (fun a => decide (a ≠ SocketAction.reconnectWS)) ∧
      SocketAction.reconnectWS ∈ socketOnError message refreshOk ∧
      (refreshOk = false → SocketAction.logErrorCall ∈ socketOnError message refreshOk)) ∧
    (message ≠ msg401 →
      (socketOnError message refreshOk).count SocketAction.setupTokenCall = 0) := by
  constructor
  · intro h
    subst h
    cases refreshOk <;> decide
  · intro h
    simp [socketOnError, h]

/-- Witness for C9: the 401 message with a failing refresh yields exactly
one setupToken call and a reconnect; a different message yields none. -/
theorem c9_socket_error_handler_witness :
    (socketOnError msg401 false).count SocketAction.setupTokenCall = 1 ∧
    SocketAction.reconnectWS ∈ socketOnError msg401 false ∧
    (socketOnError "connection refused" true).count SocketAction.setupTokenCall = 0 :=
  ⟨((c9_socket_error_handler msg401 false).1 rfl).2.1,
    ((c9_socket_error_handler msg401 false).1 rfl).2.2.2.1,
    (c9_socket_error_handler "connection refused" true).2 (by decide)⟩

/-! ## Claim C10 (marketplace clean result) -/

/-- Claim C10: with the marketplace check enabled, a non-empty API key, and
a well-formed results array containing no entry for the subject, the check
resolves {isBanned: false} with no content (checked, clean - not undefined)
and leaves the cached marketplace flag unwritten. -/
theorem c10_mptf_clean (mptfApiKey steamID : String) (rs : List MptfResult)
    (hkey : mptfApiKey ≠ "")
    (hnomatch : ∀ r ∈ rs, r.steamid ≠ steamID) :
    (isMptfBanned true mptfApiKey steamID (.success ⟨some rs⟩)).res =
      Settled.resolved (some ⟨false, none⟩) ∧
    (isMptfBanned true mptfApiKey steamID (.success ⟨some rs⟩)).mptfWrite = none := by
  have hscan : ∀ l : List MptfResult, (∀ r ∈ l, r.steamid ≠ steamID) →
      mptfScan steamID l = (some ⟨false, none⟩, none) := by
    intro l
    induction l with
    | nil => intro _; rfl
    | cons r rest ih =>
      intro hl
      have h1 : steamID ≠ r.steamid := Ne.symm (hl r (List.mem_cons_self r rest))
      have h2 := ih (fun x hx => hl x (List.mem_cons_of_mem r hx))
      simp [mptfScan, h1, h2]
  simp [isMptfBanned, hkey, hscan rs hnomatch]

/-- Witness for C10: one non-matching entry, key "abc123". -/
theorem c10_mptf_clean_witness :
    ("abc123" ≠ "") ∧
    (∀ r ∈ [(⟨"76561198000000001", some true, none⟩ : MptfResult)],
      r.steamid ≠ "76561198117552565") ∧
    ((isMptfBanned true "abc123" "76561198117552565"
        (.success ⟨some [⟨"76561198000000001", some true, none⟩]⟩)).res =
      Settled.resolved (some ⟨false, none⟩) ∧
    (isMptfBanned true "abc123" "76561198117552565"
        (.success ⟨some [⟨"76561198000000001", some true, none⟩]⟩)).mptfWrite = none) :=
  ⟨by decide, by decide,
    c10_mptf_clean "abc123" "76561198117552565"
      [⟨"76561198000000001", some true, none⟩] (by decide) (by decide)⟩

/-! ## Shared concrete inputs for the aggregator claims -/

/-- A fresh Bans instance's cache: all five flags null. -/
def initBansState : BansState := ⟨none, none, none, none, none⟩

/-- A consolidated response whose per-site entries are all the "Error"
sentinel. -/
def repAllError : RepAutobotTf := ⟨false, fun _ => RepEntry.errorSentinel, false⟩

/-- An environment whose primary call succeeds (fallback requests, were any
issued, would all fail). -/
def envPrimarySuccess : AggEnv :=
  ⟨.success repAllError, .otherErr, .otherErr, .otherErr, .otherErr, .otherErr⟩

/-- An environment in which every request the aggregator can make fails with
an ordinary (non-abort) error. -/
def envAllFail : AggEnv := ⟨.otherErr, .otherErr, .otherErr, .otherErr, .otherErr, .otherErr⟩

/-- Configuration with the marketplace check disabled and no API keys. -/
def optsNoMptf : BansOpts := ⟨false, "", ""⟩

/-! ## Claim C5 (primary success skips fallbacks) -/

/-- Claim C5: when the primary consolidated-reputation call succeeds, none
of the four per-site fallback checks is invoked during that isBanned()
call. -/
theorem c5_primary_success_skips_fallbacks (opts : BansOpts) (steamID : String)
    (st : BansState) (env : AggEnv) (rep : RepAutobotTf)
    (h : env.primary = .success rep) :
    (bansIsBanned opts steamID st env).fallbacksInvoked = [] := by
  simp [bansIsBanned, h]

/-- Witness for C5 at a concrete successful primary response. -/
theorem c5_primary_success_skips_fallbacks_witness :
    envPrimarySuccess.primary = FetchOutcome.success repAllError ∧
    (bansIsBanned optsNoMptf "76561198117552565" initBansState
      envPrimarySuccess).fallbacksInvoked = [] :=
  ⟨rfl, c5_primary_success_skips_fallbacks optsNoMptf "76561198117552565" initBansState
    envPrimarySuccess repAllError rfl⟩

/-! ## Claim C6 (primary success result shape) -/

theorem jsLookup_successStep_other (c : SiteName → RepEntry)
    (obj : List (String × Option String)) (site : SiteName) (k : String)
    (h : k ≠ siteKeyName site) :
    jsLookup (successStep c obj site) k = jsLookup obj k := by
  unfold successStep
  cases c site with
  | ok r => by_cases hb : r.isBanned <;> simp [hb, jsLookup_jsSet_other _ _ _ _ h]
  | errorSentinel => rfl
  | nullEntry => rfl

theorem jsLookup_successStep_self (c : SiteName → RepEntry)
    (obj : List (String × Option String)) (site : SiteName) :
    jsLookup (successStep c obj site) (siteKeyName site) =
      (match c site with
       | RepEntry.ok r =>
         if r.isBanned then some r.content else jsLookup obj (siteKeyName site)
       | _ => jsLookup obj (siteKeyName site)) := by
  unfold successStep
  cases c site with
  | ok r => by_cases hb : r.isBanned <;> simp [hb, jsLookup_jsSet_self]
  | errorSentinel => rfl
  | nullEntry => rfl

theorem jsLookup_foldl_notmem (c : SiteName → RepEntry) (sites : List SiteName) :
    ∀ (init : List (String × Option String)) (k : String),
      (∀ site ∈ sites, k ≠ siteKeyName site) →
      jsLookup (sites.foldl (successStep c) init) k = jsLookup init k := by
  induction sites with
  | nil => intro init k _; rfl
  | cons s rest ih =>
    intro init k h
    rw [List.foldl_cons, ih _ k (fun x hx => h x (List.mem_cons_of_mem s hx)),
      jsLookup_successStep_other c init s k (h s (List.mem_cons_self s rest))]

theorem jsLookup_successContents (c : SiteName → RepEntry) (site : SiteName) :
    jsLookup (successContents c) (siteKeyName site) =
      (match c site with
       | RepEntry.ok r => if r.isBanned then some r.content else none
       | _ => none) := by
  cases site with
  | tf2autobot =>
    rw [show successContents c =
        List.foldl (successStep c) (successStep c [] SiteName.tf2autobot)
          [SiteName.mptf, SiteName.bptf, SiteName.steamrep] from rfl]
    rw [jsLookup_foldl_notmem c _ _ _ (by intro x hx; fin_cases hx <;> decide),
      jsLookup_successStep_self]
    cases c SiteName.tf2autobot <;> rfl
  | mptf =>
    rw [show successContents c =
        List.foldl (successStep c)
          (successStep c (successStep c [] SiteName.tf2autobot) SiteName.mptf)
          [SiteName.bptf, SiteName.steamrep] from rfl]
    rw [jsLookup_foldl_notmem c _ _ _ (by intro x hx; fin_cases hx <;> decide),
      jsLookup_successStep_self,
      jsLookup_successStep_other c [] SiteName.tf2autobot _ (by decide)]
    cases c SiteName.mptf <;> rfl
  | bptf =>
    rw [show successContents c =
        List.foldl (successStep c)
          (successStep c
            (successStep c (successStep c [] SiteName.tf2autobot) SiteName.mptf)
            SiteName.bptf)
          [SiteName.steamrep] from rfl]
    rw [jsLookup_foldl_notmem c _ _ _ (by intro x hx; fin_cases hx; decide),
      jsLookup_successStep_self,
      jsLookup_successStep_other c _ SiteName.mptf _ (by decide),
      jsLookup_successStep_other c [] SiteName.tf2autobot _ (by decide)]
    cases c SiteName.bptf <;> rfl
  | steamrep =>
    rw [show successContents c =
        List.foldl (successStep c)
          (successStep c
            (successStep c
              (successStep c (successStep c [] SiteName.tf2autobot) SiteName.mptf)
              SiteName.bptf)
            SiteName.steamrep)
          [] from rfl]
    rw [show List.foldl (successStep c)
          (successStep c
            (successStep c
              (successStep c (successStep c [] SiteName.tf2autobot) SiteName.mptf)
              SiteName.bptf)
            SiteName.steamrep) [] =
        successStep c
          (successStep c
            (successStep c (successStep c [] SiteName.tf2autobot) SiteName.mptf)
            SiteName.bptf)
          SiteName.steamrep from rfl]
    rw [jsLookup_successStep_self,
      jsLookup_successStep_other c _ SiteName.bptf _ (by decide),
      jsLookup_successStep_other c _ SiteName.mptf _ (by decide),
      jsLookup_successStep_other c [] SiteName.tf2autobot _ (by decide)]
    cases c SiteName.steamrep <;> rfl

/-- Claim C6: on primary success, the returned isBanned selects the
response's isBanned field when the marketplace check is enabled and
isBannedExcludeMptf otherwise, and the contents object contains exactly the
sites whose entry is a non-Error, non-null result with isBanned true, each
mapped to that entry's content. -/
theorem c6_primary_success_result (opts : BansOpts) (steamID : String) (st : BansState)
    (env : AggEnv) (rep : RepAutobotTf) (h : env.primary = .success rep) :
    (bansIsBanned opts steamID st env).res =
      Settled.resolved
        ⟨(if opts.checkMptfBanned then rep.isBanned else rep.isBannedExcludeMptf),
          some (successContents rep.contents)⟩ ∧
    (∀ site : SiteName,
      jsLookup (successContents rep.contents) (siteKeyName site) =
        (match rep.contents site with
         | RepEntry.ok r => if r.isBanned then some r.content else none
         | _ => none)) ∧
    (∀ k : String, (∀ site : SiteName, k ≠ siteKeyName site) →
      jsLookup (successContents rep.contents) k = none) := by
  refine ⟨by simp [bansIsBanned, h], fun site => jsLookup_successContents rep.contents site, ?_⟩
  intro k hk
  exact jsLookup_foldl_notmem rep.contents siteOrder [] k (fun s _ => hk s)

/-- Witness for C6: all four entries of the concrete response are the Error
sentinel, so the success contents object is empty. -/
theorem c6_primary_success_result_witness :
    envPrimarySuccess.primary = FetchOutcome.success repAllError ∧
    ((bansIsBanned optsNoMptf "76561198117552565" initBansState envPrimarySuccess).res =
      Settled.resolved
        ⟨(if optsNoMptf.checkMptfBanned then repAllError.isBanned
          else repAllError.isBannedExcludeMptf),
          some (successContents repAllError.contents)⟩ ∧
    (∀ site : SiteName,
      jsLookup (successContents repAllError.contents) (siteKeyName site) =
        (match repAllError.contents site with
         | RepEntry.ok r => if r.isBanned then some r.content else none
         | _ => none)) ∧
    (∀ k : String, (∀ site : SiteName, k ≠ siteKeyName site) →
      jsLookup (successContents repAllError.contents) k = none)) :=
  ⟨rfl, c6_primary_success_result optsNoMptf "76561198117552565" initBansState
    envPrimarySuccess repAllError rfl⟩

/-! ## Claim C7 (fallback merge is a logical OR) -/

/-- The isBanned flag of a possibly-undefined site result, an undefined
result contributing false to the OR. -/
def optIsBanned (o : Option SiteResult) : Bool :=
  (o.map SiteResult.isBanned).getD false

theorem finalize_isBanned_or (ck : Bool) (rs : ResultSources)
    (hne : rs.bptf.isSome ∨ rs.mptf.isSome ∨ rs.steamrep.isSome ∨ rs.untrusted.isSome) :
    (finalize ck rs).isBanned =
      (optIsBanned rs.bptf || optIsBanned rs.mptf || optIsBanned rs.steamrep ||
        optIsBanned rs.untrusted) := by
  rcases rs with ⟨b, m, s, u⟩
  rcases b with _ | b <;> rcases m with _ | m <;> rcases s with _ | s <;> rcases u with _ | u <;>
    simp_all [finalize, optIsBanned, Bool.or_assoc]

/-- Claim C7: when the primary call fails and every fallback check's promise
resolves, with at least one non-undefined result, the merged result resolves
and its isBanned is the logical OR of the resolved results' isBanned
flags. -/
theorem c7_fallback_merge_or (opts : BansOpts) (steamID : String) (st : BansState)
    (env : AggEnv) (uv mv sv bv : Option SiteResult)
    (hp : env.primary.isFailure = true)
    (hu : (isListedUntrusted steamID env.untrustedFirst env.untrustedRetry).res =
      Settled.resolved uv)
    (hm : (isMptfBanned opts.checkMptfBanned opts.mptfApiKey steamID env.mptf).res =
      Settled.resolved mv)
    (hs : (isSteamRepMarked env.steamrep st.isBptfSteamRepBanned).res = Settled.resolved sv)
    (hb : (isBptfBanned opts.bptfApiKey env.bptf).res = Settled.resolved bv)
    (hne : uv.isSome ∨ mv.isSome ∨ sv.isSome ∨ bv.isSome) :
    ∃ r : IsBanned, (bansIsBanned opts steamID st env).res = Settled.resolved r ∧
      r.isBanned =
        (optIsBanned bv || optIsBanned mv || optIsBanned sv || optIsBanned uv) := by
  refine ⟨finalize opts.checkMptfBanned ⟨bv, mv, sv, uv⟩, ?_, ?_⟩
  · cases hpr : env.primary with
    | success rep => rw [hpr] at hp; simp [FetchOutcome.isFailure] at hp
    | abortErr => simp [bansIsBanned, hpr, hu, hm, hs, hb]
    | otherErr => simp [bansIsBanned, hpr, hu, hm, hs, hb]
  · exact finalize_isBanned_or opts.checkMptfBanned ⟨bv, mv, sv, uv⟩ (by tauto)

/-- An untrusted-list body listing exactly one steamid. -/
def untrustedListing : UntrustedJson :=
  ⟨[("76561198117552565", ⟨"stole items", "community report"⟩)]⟩

/-- An environment where the primary fails and only the untrusted-list check
produces a (banned) result. -/
def envOnlyUntrusted : AggEnv :=
  ⟨.otherErr, .success untrustedListing, .otherErr, .otherErr, .otherErr, .otherErr⟩

/-- Witness for C7: primary fails, exactly one fallback (the untrusted list)
resolves banned = true, the rest resolve undefined - the merged isBanned is
true. -/
theorem c7_fallback_merge_or_witness :
    envOnlyUntrusted.primary.isFailure = true ∧
    (isListedUntrusted "76561198117552565" envOnlyUntrusted.untrustedFirst
        envOnlyUntrusted.untrustedRetry).res =
      Settled.resolved (some ⟨true,
        some "Reason: stole items - Source: community report"⟩) ∧
    (isMptfBanned optsNoMptf.checkMptfBanned optsNoMptf.mptfApiKey "76561198117552565"
        envOnlyUntrusted.mptf).res = Settled.resolved none ∧
    (isSteamRepMarked envOnlyUntrusted.steamrep initBansState.isBptfSteamRepBanned).res =
      Settled.resolved none ∧
    (isBptfBanned optsNoMptf.bptfApiKey envOnlyUntrusted.bptf).res = Settled.resolved none ∧
    (∃ r : IsBanned,
      (bansIsBanned optsNoMptf "76561198117552565" initBansState envOnlyUntrusted).res =
        Settled.resolved r ∧
      r.isBanned =
        (optIsBanned none || optIsBanned none || optIsBanned none ||
          optIsBanned (some ⟨true,
            some "Reason: stole items - Source: community report"⟩))) :=
  ⟨by decide, by decide, by decide, by decide, by decide,
    c7_fallback_merge_or optsNoMptf "76561198117552565" initBansState envOnlyUntrusted
      (some ⟨true, some "Reason: stole items - Source: community report"⟩) none none none
      (by decide) (by decide) (by decide) (by decide) (by decide)
      (Or.inl (by decide))⟩

/-! ## Cache-write lemmas for the failure paths -/

theorem untrusted_resolved_none_write (steamID : String)
    (first retry : FetchOutcome UntrustedJson)
    (h : (isListedUntrusted steamID first retry).res = Settled.resolved none) :
    (isListedUntrusted steamID first retry).communityWrite = none := by
  cases first with
  | success j =>
    cases hj : jsLookup j.steamids steamID <;>
      simp_all [isListedUntrusted, untrustedThen]
  | abortErr => simp_all [isListedUntrusted]
  | otherErr => rfl

theorem steamrep_resolved_none_write (outcome : FetchOutcome SteamRepData)
    (cached : Option Bool)
    (h : (isSteamRepMarked outcome cached).res = Settled.resolved none) :
    (isSteamRepMarked outcome cached).steamRepWrite = none := by
  have hcatch : ∀ c : Option Bool, (steamRepCatch c).steamRepWrite = none := by
    intro c; cases c <;> rfl
  cases outcome with
  | success d =>
    cases hd : steamRepThen d with
    | ok bf => simp_all [isSteamRepMarked]
    | error e => simp [isSteamRepMarked, hd, hcatch]
  | abortErr => simp [isSteamRepMarked, hcatch]
  | otherErr => simp [isSteamRepMarked, hcatch]

theorem mptf_rejected_write (ck : Bool) (key steamID : String)
    (outcome : FetchOutcome MptfGetUserBan)
    (h : (isMptfBanned ck key steamID outcome).res = Settled.rejectedErr) :
    (isMptfBanned ck key steamID outcome).mptfWrite = none := by
  by_cases hck : ck
  · by_cases hk : key = ""
    · simp [isMptfBanned, hck, hk]
    · cases outcome with
      | success d =>
        cases hr : d.results with
        | none => simp_all [isMptfBanned, hck, hk]
        | some rs => simp_all [isMptfBanned, hck, hk]
      | abortErr => simp_all [isMptfBanned, hck, hk]
      | otherErr => simp_all [isMptfBanned, hck, hk]
  · simp_all [isMptfBanned, hck]

theorem bptf_resolved_none_write (key : String) (outcome : FetchOutcome BptfUser)
    (h : (isBptfBanned key outcome).res = Settled.resolved none) :
    (isBptfBanned key outcome).bptfWrite = none ∧
    (isBptfBanned key outcome).bptfSteamRepWrite = none := by
  by_cases hk : key = ""
  · simp [isBptfBanned, hk]
  · cases outcome with
    | success user => cases hu : user.bans <;> simp_all [isBptfBanned, hk]
    | abortErr => simp [isBptfBanned, hk]
    | otherErr => simp [isBptfBanned, hk]

/-- When the four checks perform no cache writes (all resolving undefined
except a marketplace rejection), the post-run cache equals the prior one. -/
theorem aggPostState_id (opts : BansOpts) (steamID : String) (st : BansState) (env : AggEnv)
    (hu : (isListedUntrusted steamID env.untrustedFirst env.untrustedRetry).res =
      Settled.resolved none)
    (hs : (isSteamRepMarked env.steamrep st.isBptfSteamRepBanned).res = Settled.resolved none)
    (hb : (isBptfBanned opts.bptfApiKey env.bptf).res = Settled.resolved none)
    (hmw : (isMptfBanned opts.checkMptfBanned opts.mptfApiKey steamID
      env.mptf).mptfWrite = none) :
    aggPostState opts steamID st env = st := by
  have h1 := untrusted_resolved_none_write steamID env.untrustedFirst env.untrustedRetry hu
  have h2 := steamrep_resolved_none_write env.steamrep st.isBptfSteamRepBanned hs
  have h3 := bptf_resolved_none_write opts.bptfApiKey env.bptf hb
  simp only [aggPostState, h1, h2, h3.1, h3.2, hmw, applyWrite]

/-! ## Claim C1 (all fallbacks undefined, empty cache) -/

/-- Counterexample to claim C1 as stated: the primary call fails, all four
fallback checks resolve undefined, and no cached flag is true - yet
isBanned() resolves with the deny-by-default result, isBanned = true with a
default-rule detail line, not with {isBanned: false}. The cached-flag
branch only runs when the Promise.all combination rejects, which it does not
here since every check resolved. -/
theorem c1_counterexample :
    (isListedUntrusted "76561198117552565" envAllFail.untrustedFirst
        envAllFail.untrustedRetry).res = Settled.resolved none ∧
    (isMptfBanned optsNoMptf.checkMptfBanned optsNoMptf.mptfApiKey "76561198117552565"
        envAllFail.mptf).res = Settled.resolved none ∧
    (isSteamRepMarked envAllFail.steamrep initBansState.isBptfSteamRepBanned).res =
      Settled.resolved none ∧
    (isBptfBanned optsNoMptf.bptfApiKey envAllFail.bptf).res = Settled.resolved none ∧
    cachedSaysBanned optsNoMptf.checkMptfBanned initBansState = false ∧
    (bansIsBanned optsNoMptf "76561198117552565" initBansState envAllFail).res =
      Settled.resolved defaultDenyResult ∧
    defaultDenyResult.isBanned = true := by
  decide

/-- Claim C1 (amended): when the primary call fails, all four fallback
checks resolve undefined, and no cached flag is true, isBanned() resolves
with the deny-by-default result: isBanned = true with the single
default-rule content line (not {isBanned: false}; that outcome belongs to
the rejection path of claim C2's scenario with an all-clean cache). -/
theorem c1_amended (opts : BansOpts) (steamID : String) (st : BansState) (env : AggEnv)
    (hp : env.primary.isFailure = true)
    (hu : (isListedUntrusted steamID env.untrustedFirst env.untrustedRetry).res =
      Settled.resolved none)
    (hm : (isMptfBanned opts.checkMptfBanned opts.mptfApiKey steamID env.mptf).res =
      Settled.resolved none)
    (hs : (isSteamRepMarked env.steamrep st.isBptfSteamRepBanned).res = Settled.resolved none)
    (hb : (isBptfBanned opts.bptfApiKey env.bptf).res = Settled.resolved none)
    (_hc : cachedSaysBanned opts.checkMptfBanned st = false) :
    (bansIsBanned opts steamID st env).res = Settled.resolved defaultDenyResult := by
  cases hpr : env.primary with
  | success rep => rw [hpr] at hp; simp [FetchOutcome.isFailure] at hp
  | abortErr => simp [bansIsBanned, hpr, hu, hm, hs, hb, finalize]
  | otherErr => simp [bansIsBanned, hpr, hu, hm, hs, hb, finalize]

/-- Witness for the amended C1 at the all-failing environment with an empty
cache and the marketplace check disabled. -/
theorem c1_amended_witness :
    envAllFail.primary.isFailure = true ∧
    (isListedUntrusted "76561198117552565" envAllFail.untrustedFirst
        envAllFail.untrustedRetry).res = Settled.resolved none ∧
    (isMptfBanned optsNoMptf.checkMptfBanned optsNoMptf.mptfApiKey "76561198117552565"
        envAllFail.mptf).res = Settled.resolved none ∧
    (isSteamRepMarked envAllFail.steamrep initBansState.isBptfSteamRepBanned).res =
      Settled.resolved none ∧
    (isBptfBanned optsNoMptf.bptfApiKey envAllFail.bptf).res = Settled.resolved none ∧
    cachedSaysBanned optsNoMptf.checkMptfBanned initBansState = false ∧
    (bansIsBanned optsNoMptf "76561198117552565" initBansState envAllFail).res =
      Settled.resolved defaultDenyResult :=
  ⟨by decide, by decide, by decide, by decide, by decide, by decide,
    c1_amended optsNoMptf "76561198117552565" initBansState envAllFail
      (by decide) (by decide) (by decide) (by decide) (by decide) (by decide)⟩

/-! ## Claim C2 (total failure with a known-bad cache rejects) -/

/-- Claim C2 (amended): when the primary call fails, the fallback
combination rejects - the untrusted, steamrep and bptf checks fail by
resolving undefined while the marketplace check's promise rejects (the only
check able to reject) - and at least one of the five cached flags is true
(the marketplace flag counting only when that check is enabled), isBanned()
rejects, propagating the error to the caller. -/
theorem c2_total_failure_rejects (opts : BansOpts) (steamID : String) (st : BansState)
    (env : AggEnv)
    (hp : env.primary.isFailure = true)
    (hu : (isListedUntrusted steamID env.untrustedFirst env.untrustedRetry).res =
      Settled.resolved none)
    (hm : (isMptfBanned opts.checkMptfBanned opts.mptfApiKey steamID env.mptf).res =
      Settled.rejectedErr)
    (hs : (isSteamRepMarked env.steamrep st.isBptfSteamRepBanned).res = Settled.resolved none)
    (hb : (isBptfBanned opts.bptfApiKey env.bptf).res = Settled.resolved none)
    (hc : cachedSaysBanned opts.checkMptfBanned st = true) :
    (bansIsBanned opts steamID st env).res = Settled.rejectedErr := by
  have hmw := mptf_rejected_write opts.checkMptfBanned opts.mptfApiKey steamID env.mptf hm
  have hst := aggPostState_id opts steamID st env hu hs hb hmw
  cases hpr : env.primary with
  | success rep => rw [hpr] at hp; simp [FetchOutcome.isFailure] at hp
  | abortErr => simp [bansIsBanned, hpr, hu, hm, hs, hb, hst, hc]
  | otherErr => simp [bansIsBanned, hpr, hu, hm, hs, hb, hst, hc]

/-- Configuration with the marketplace check enabled but its API key left
empty (the marketplace check then rejects with a configuration error). -/
def optsMptfNoKey : BansOpts := ⟨true, "", ""⟩

/-- A cache remembering a community (untrusted-list) ban from a prior run. -/
def cacheCommunityBanned : BansState := ⟨none, none, none, some true, none⟩

/-- Counterexample to claim C2 as stated: the primary call fails, all four
fallback checks fail by resolving undefined, and a cached flag (the
community flag, not gated by the marketplace toggle) is true - yet
isBanned() does not reject: the Promise.all resolves, the cache is never
consulted, and the call resolves with the deny-by-default result. The
rejection the claim describes happens only when the fallback combination
rejects (marketplace check enabled with an empty API key). -/
theorem c2_counterexample :
    (isListedUntrusted "76561198117552565" envAllFail.untrustedFirst
        envAllFail.untrustedRetry).res = Settled.resolved none ∧
    (isMptfBanned optsNoMptf.checkMptfBanned optsNoMptf.mptfApiKey "76561198117552565"
        envAllFail.mptf).res = Settled.resolved none ∧
    (isSteamRepMarked envAllFail.steamrep cacheCommunityBanned.isBptfSteamRepBanned).res =
      Settled.resolved none ∧
    (isBptfBanned optsNoMptf.bptfApiKey envAllFail.bptf).res = Settled.resolved none ∧
    cachedSaysBanned optsNoMptf.checkMptfBanned cacheCommunityBanned = true ∧
    (bansIsBanned optsNoMptf "76561198117552565" cacheCommunityBanned envAllFail).res =
      Settled.resolved defaultDenyResult ∧
    (bansIsBanned optsNoMptf "76561198117552565" cacheCommunityBanned envAllFail).res ≠
      Settled.rejectedErr := by
  decide

/-- Witness for C2: marketplace check enabled with an empty key (its promise
rejects), every other check fails, and the cached community flag is true -
the call rejects. -/
theorem c2_total_failure_rejects_witness :
    envAllFail.primary.isFailure = true ∧
    (isListedUntrusted "76561198117552565" envAllFail.untrustedFirst
        envAllFail.untrustedRetry).res = Settled.resolved none ∧
    (isMptfBanned optsMptfNoKey.checkMptfBanned optsMptfNoKey.mptfApiKey "76561198117552565"
        envAllFail.mptf).res = Settled.rejectedErr ∧
    (isSteamRepMarked envAllFail.steamrep cacheCommunityBanned.isBptfSteamRepBanned).res =
      Settled.resolved none ∧
    (isBptfBanned optsMptfNoKey.bptfApiKey envAllFail.bptf).res = Settled.resolved none ∧
    cachedSaysBanned optsMptfNoKey.checkMptfBanned cacheCommunityBanned = true ∧
    (bansIsBanned optsMptfNoKey "76561198117552565" cacheCommunityBanned envAllFail).res =
      Settled.rejectedErr :=
  ⟨by decide, by decide, by decide, by decide, by decide, by decide,
    c2_total_failure_rejects optsMptfNoKey "76561198117552565" cacheCommunityBanned envAllFail
      (by decide) (by decide) (by decide) (by decide) (by decide) (by decide)⟩
